import Mathlib

/-!
Verification of the Express/Mongoose e-commerce backend: cart, coupon and
order totals, order lifecycle, coupon application, token refresh, the
error taxonomy, response envelopes and rate limiting.

Modelling conventions, used throughout:
* JavaScript numbers are modelled as rationals (`ℚ`), quantities as `Nat`,
  stock counters as `Int` (they are mutated with Mongo `$inc`).
* `Date` values are integer epoch milliseconds (`Int`).
* MongoDB documents are modelled with the fields the route handlers read
  and write; a collection is a list of documents or a map from ids.
* A handler is a pure function from its inputs and the store to the HTTP
  status code it answers with and the updated store.  `await x.save()`
  is the corresponding functional update; a thrown exception that a
  handler would catch is an explicit input.
-/

namespace ECom

/-- The `discountType` enum of the coupon schema (`Coupon.ts`). -/
inductive DiscountType
  | percentage
  | fixed
deriving DecidableEq, Repr

/-- A coupon document, with the fields the cart and order controllers read:
`code`, `discountType`, `discountValue`, `maxDiscountAmount`, `usageLimit`,
`usedCount`, `isActive`, and the `expiresAt` expiry date the controllers
query with `expiresAt : \x7b $gt: new Date() \x7d`. -/
structure Coupon where
  code : String
  discountType : DiscountType
  discountValue : ℚ
  maxDiscountAmount : Option ℚ
  usageLimit : Nat
  usedCount : Nat
  isActive : Bool
  expiresAt : Int
deriving DecidableEq, Repr

/-- The discount `getCart` computes for a found coupon
(`cartController.ts` lines 52-60): percentage is
`subtotal * discountValue / 100`, fixed is `min(discountValue, subtotal)`;
then `if (coupon.maxDiscountAmount && discount > coupon.maxDiscountAmount)`
the discount is replaced by `maxDiscountAmount`.  The JavaScript `&&`
guard makes the cap apply only when the field is present and nonzero. -/
def getCartDiscount (subtotal : ℚ) (c : Coupon) : ℚ :=
  let discount : ℚ :=
    match c.discountType with
    | .percentage => subtotal * c.discountValue / 100
    | .fixed => min c.discountValue subtotal
  match c.maxDiscountAmount with
  | some m => if m ≠ 0 ∧ discount > m then m else discount
  | none => discount

/-- The discount `createOrder` computes for a found coupon
(order controller lines 84-92); the code is a verbatim copy of the
`getCart` computation. -/
def createOrderDiscount (subtotal : ℚ) (c : Coupon) : ℚ :=
  let discount : ℚ :=
    match c.discountType with
    | .percentage => subtotal * c.discountValue / 100
    | .fixed => min c.discountValue subtotal
  match c.maxDiscountAmount with
  | some m => if m ≠ 0 ∧ discount > m then m else discount
  | none => discount

/-- The total reported by `getCart` (line 75, `total = subtotal - discount`);
`discount` is `0` when no coupon is applied or the lookup finds none. -/
def getCartTotal (subtotal : ℚ) (c : Option Coupon) : ℚ :=
  subtotal - (match c with | some c => getCartDiscount subtotal c | none => 0)

/-- The total `createOrder` computes (line 107, `total = subtotal - discount`). -/
def createOrderTotal (subtotal : ℚ) (c : Option Coupon) : ℚ :=
  subtotal -
    (match c with | some c => createOrderDiscount subtotal c | none => 0)

/-- The discount as claim C1 words it: the percentage/fixed base value
"clamped to maxDiscountAmount when that field is set" — i.e. capped
whenever the field is present, including when it is set to `0`. -/
def claimC1Discount (subtotal : ℚ) (c : Coupon) : ℚ :=
  let base : ℚ :=
    match c.discountType with
    | .percentage => subtotal * c.discountValue / 100
    | .fixed => min c.discountValue subtotal
  match c.maxDiscountAmount with
  | some m => if base > m then m else base
  | none => base

/-- The discount as the amended claim words it: the cap applies only when
`maxDiscountAmount` is set to a nonzero value. -/
def amendedC1Discount (subtotal : ℚ) (c : Coupon) : ℚ :=
  let base : ℚ :=
    match c.discountType with
    | .percentage => subtotal * c.discountValue / 100
    | .fixed => min c.discountValue subtotal
  match c.maxDiscountAmount with
  | some m => if m ≠ 0 ∧ base > m then m else base
  | none => base

/-- A fixed-amount coupon whose `maxDiscountAmount` is set to `0`;
the schema allows the value (`min: 0`). -/
def couponZeroCap : Coupon :=
  { code := "SAVE5", discountType := .fixed, discountValue := 5,
    maxDiscountAmount := some 0, usageLimit := 10, usedCount := 0,
    isActive := true, expiresAt := 1000 }

/-! ## Cart document and its pre-save hook -/

/-- A cart line item (cart schema): the fields `productId`, `quantity`,
`price` and `total`. -/
structure CartItem where
  productId : Nat
  quantity : Nat
  price : ℚ
  total : ℚ
deriving DecidableEq, Repr

/-- The stored `totals` sub-document of a cart. -/
structure CartTotals where
  subtotal : ℚ
  tax : ℚ
  shipping : ℚ
  total : ℚ
deriving DecidableEq, Repr

/-- A cart document: line items, stored totals, and the applied coupon
code. -/
structure CartDoc where
  items : List CartItem
  totals : CartTotals
  couponCode : Option String
deriving DecidableEq, Repr

/-- The `pre("save")` hook of the cart schema: `totals.subtotal` is the sum
of the item `total` fields, `totals.tax` is `subtotal * 0.1`, and
`totals.total` is `subtotal + tax + shipping`. -/
def cartPreSave (c : CartDoc) : CartDoc :=
  let subtotal := c.items.foldl (fun sum item => sum + item.total) 0
  let tax := subtotal * (1 / 10)
  { c with
    totals :=
      { c.totals with
        subtotal := subtotal, tax := tax,
        total := subtotal + tax + c.totals.shipping } }

/-! ## Products, coupons and the order controller -/

/-- A product document with the fields the order controller reads:
`name`, `price`, `isActive` and the `stock` counter it mutates with
`$inc`. -/
structure ProductDoc where
  name : String
  price : ℚ
  isActive : Bool
  stock : Int
deriving DecidableEq, Repr

/-- Order status enum of the order schema. -/
inductive OrderStatus
  | pending
  | confirmed
  | processing
  | shipped
  | delivered
  | cancelled
  | refunded
deriving DecidableEq, Repr

/-- An order line item as `createOrder` builds it from a cart item and its
populated product. -/
structure OrderItem where
  productId : Nat
  name : String
  quantity : Nat
  price : ℚ
  total : ℚ
deriving DecidableEq, Repr

/-- An order document with the fields `createOrder`, `cancelOrder` and
`updateOrderStatus` read and write. -/
structure OrderDoc where
  items : List OrderItem
  subtotal : ℚ
  discount : ℚ
  total : ℚ
  status : OrderStatus
  paymentCompleted : Bool
  trackingNumber : Option String
  shippedAt : Option Int
  deliveredAt : Option Int
deriving DecidableEq, Repr

/-- A placeholder order document, used only as the `Option.getD` default
when reading the order returned by a successful `createOrder`. -/
def emptyOrder : OrderDoc :=
  { items := [], subtotal := 0, discount := 0, total := 0,
    status := .pending, paymentCompleted := false, trackingNumber := none,
    shippedAt := none, deliveredAt := none }

/-- The backend store the cart and order controllers touch: the product
collection (keyed by id), the coupon collection, the cart of the current
user (`Cart.findOne` may find none) and the order collection. -/
structure Sys where
  products : Nat → Option ProductDoc
  coupons : List Coupon
  cart : Option CartDoc
  orders : List OrderDoc

/-- `Coupon.findOne(\x7b code, isActive: true, expiresAt: \x7b $gt: now \x7d \x7d)`,
the lookup `getCart`, `createOrder` and `applyCoupon` all perform. -/
def findCoupon (coupons : List Coupon) (code : String) (now : Int) :
    Option Coupon :=
  coupons.find? fun c => c.code == code && c.isActive && decide (now < c.expiresAt)

/-- Persisting `coupon.usedCount += 1; await coupon.save()` for the found
coupon.  Coupon codes are unique (schema option `unique: true`), so saving
the mutated document is an update keyed by its code. -/
def saveCouponUse (coupons : List Coupon) (code : String) : List Coupon :=
  coupons.map fun c =>
    if c.code = code then { c with usedCount := c.usedCount + 1 } else c

/-- `Product.findByIdAndUpdate(pid, \x7b $inc: \x7b stock: d \x7d \x7d)`. -/
def incStock (ps : Nat → Option ProductDoc) (pid : Nat) (d : Int) :
    Nat → Option ProductDoc :=
  fun q =>
    if q = pid then (ps q).map (fun p => { p with stock := p.stock + d })
    else ps q

/-- The stock-decrement loop of `createOrder` (lines 170-175): for every
cart item, `$inc: \x7b stock: -item.quantity \x7d`. -/
def decStocks (ps : Nat → Option ProductDoc) (items : List CartItem) :
    Nat → Option ProductDoc :=
  items.foldl
    (fun acc item => incStock acc item.productId (-(item.quantity : Int))) ps

/-- The stock-restore loop of `cancelOrder` (lines 374-379): for every
order item, `$inc: \x7b stock: item.quantity \x7d`. -/
def restoreStocks (ps : Nat → Option ProductDoc) (items : List OrderItem) :
    Nat → Option ProductDoc :=
  items.foldl
    (fun acc item => incStock acc item.productId (item.quantity : Int)) ps

/-- The stock-validation loop of `createOrder` (lines 40-62): it counts the
stock errors (missing or inactive product, or `product.stock <
item.quantity`) and accumulates `subtotal += product.price * item.quantity`
over the remaining items. -/
def stockScan (s : Sys) (cart : CartDoc) : Nat × ℚ :=
  cart.items.foldl
    (fun acc item =>
      match s.products item.productId with
      | none => (acc.1 + 1, acc.2)
      | some p =>
        if ¬ p.isActive then (acc.1 + 1, acc.2)
        else if p.stock < (item.quantity : Int) then (acc.1 + 1, acc.2)
        else (acc.1, acc.2 + p.price * (item.quantity : ℚ)))
    ((0 : Nat), (0 : ℚ))

/-- The order items `createOrder` builds (lines 113-121); the stock scan has
already guaranteed that every referenced product exists, so the populated
product accesses are modelled with a default for totality. -/
def mkOrderItems (s : Sys) (items : List CartItem) : List OrderItem :=
  items.map fun item =>
    { productId := item.productId
      name := ((s.products item.productId).map (fun p => p.name)).getD ""
      quantity := item.quantity
      price := ((s.products item.productId).map (fun p => p.price)).getD 0
      total :=
        ((s.products item.productId).map (fun p => p.price)).getD 0 *
          (item.quantity : ℚ) }

/-- The coupon section of `createOrder` (lines 72-105): when the cart has
a coupon code and the lookup finds a valid coupon, its discount is computed
and its usage increment is saved; otherwise the discount is 0 and the coupon
collection is untouched.  Returns the discount and the updated coupon
collection. -/
def orderCouponStep (now : Int) (s : Sys) (cart : CartDoc) (subtotal : ℚ) :
    ℚ × List Coupon :=
  match cart.couponCode with
  | none => (0, s.coupons)
  | some code =>
    match findCoupon s.coupons code now with
    | none => (0, s.coupons)
    | some c => (createOrderDiscount subtotal c, saveCouponUse s.coupons code)

/-- Outcome of `paymentUtils.processPayment` as `createOrder` observes it:
the promise resolves with status `"succeeded"`, resolves with any other
status, or rejects. -/
inductive PaymentResult
  | succeeded
  | notSucceeded
  | threw
deriving DecidableEq, Repr

/-- Result of a `createOrder` call: HTTP status, updated store, and the
order document it created, if any. -/
structure CreateOrderResult where
  status : Nat
  sys : Sys
  order : Option OrderDoc

/-- The tail of the `createOrder` success path (lines 167-226): save the
order, decrement the stock of every cart item, clear the cart (its
`pre("save")` hook recomputes the stored totals) and answer 201. -/
def finishOrder (s : Sys) (coupons1 : List Coupon) (cart : CartDoc)
    (order : OrderDoc) : CreateOrderResult :=
  { status := 201
    sys :=
      { products := decStocks s.products cart.items
        coupons := coupons1
        cart := some (cartPreSave { cart with items := [], couponCode := none })
        orders := order :: s.orders }
    order := some order }

/-- `createOrder` (order controller lines 13-234).  Validation failure
answers 400; a missing or empty cart answers 400; any stock error answers
400; a found coupon has its `usedCount` incremented and saved before
payment; payment (skipped for `cash_on_delivery`) answers 400 when the
intent does not succeed and 500 when `processPayment` throws — in both
cases after the coupon save; otherwise the order is saved, stock is
decremented, the cart is cleared and the response is 201. -/
def createOrder (now : Int) (validationFailed : Bool) (paymentMethod : String)
    (pay : PaymentResult) (s : Sys) : CreateOrderResult :=
  if validationFailed then ⟨400, s, none⟩
  else
    match s.cart with
    | none => ⟨400, s, none⟩
    | some cart =>
      if cart.items.isEmpty then ⟨400, s, none⟩
      else if (stockScan s cart).1 ≠ 0 then ⟨400, s, none⟩
      else
        let subtotal := (stockScan s cart).2
        let couponStep := orderCouponStep now s cart subtotal
        let discount := couponStep.1
        let coupons1 := couponStep.2
        let order0 : OrderDoc :=
          { items := mkOrderItems s cart.items
            subtotal := subtotal
            discount := discount
            total := subtotal - discount
            status := .pending
            paymentCompleted := false
            trackingNumber := none
            shippedAt := none
            deliveredAt := none }
        if paymentMethod ≠ "cash_on_delivery" then
          match pay with
          | .threw => ⟨500, { s with coupons := coupons1 }, none⟩
          | .notSucceeded => ⟨400, { s with coupons := coupons1 }, none⟩
          | .succeeded =>
            finishOrder s coupons1 cart { order0 with paymentCompleted := true }
        else
          finishOrder s coupons1 cart order0

/-- `cancelOrder` (order controller lines 331-418), applied to the found
order: validation failure answers 400; an order already shipped or
delivered answers 400; an order already cancelled answers 400; otherwise the
status becomes `cancelled`, the order is saved, and the stock of every order
item is restored.  The saved order document is returned alongside the
store. -/
def cancelOrder (validationFailed : Bool) (o : OrderDoc) (s : Sys) :
    Nat × Sys × OrderDoc :=
  if validationFailed then (400, s, o)
  else if o.status = .shipped ∨ o.status = .delivered then (400, s, o)
  else if o.status = .cancelled then (400, s, o)
  else
    (200, { s with products := restoreStocks s.products o.items },
      { o with status := .cancelled })

/-- `updateOrderStatus` (order controller lines 535-613), applied to the
found order: validation failure answers 400; otherwise the requested status
is assigned unconditionally, a nonempty tracking number is stored, and
`shippedAt`/`deliveredAt` are stamped for the corresponding statuses. -/
def updateOrderStatus (now : Int) (validationFailed : Bool)
    (newStatus : OrderStatus) (tracking : Option String) (o : OrderDoc) :
    Nat × OrderDoc :=
  if validationFailed then (400, o)
  else
    let o1 := { o with status := newStatus }
    let o2 :=
      match tracking with
      | some t => if t.isEmpty then o1 else { o1 with trackingNumber := some t }
      | none => o1
    let o3 :=
      if newStatus = .shipped then { o2 with shippedAt := some now }
      else if newStatus = .delivered then { o2 with deliveredAt := some now }
      else o2
    (200, o3)

/-- `couponCode.toUpperCase()`, modelled characterwise (so that it is
computable by kernel reduction, unlike `String.toUpper`, whose recursion is
well-founded). -/
def upperCase (s : String) : String :=
  ⟨s.data.map Char.toUpper⟩

/-- `applyCoupon` (`cartController.ts` lines 388-462): validation failure
answers 400; a missing cart answers 404; an empty cart answers 400; the
coupon lookup uses the uppercased code and answers 400 when nothing valid is
found; `if (coupon.usageLimit && coupon.usedCount >= coupon.usageLimit)`
answers 400; otherwise the coupon code is stored on the cart and the cart is
saved (running its `pre("save")` hook). -/
def applyCoupon (now : Int) (validationFailed : Bool) (code : String)
    (s : Sys) : Nat × Sys :=
  if validationFailed then (400, s)
  else
    match s.cart with
    | none => (404, s)
    | some cart =>
      if cart.items.isEmpty then (400, s)
      else
        match findCoupon s.coupons (upperCase code) now with
        | none => (400, s)
        | some c =>
          if c.usageLimit ≠ 0 ∧ c.usageLimit ≤ c.usedCount then (400, s)
          else
            (200,
              { s with
                cart := some (cartPreSave { cart with couponCode := some c.code }) })

/-! ## Refresh tokens (`tokenUtils.ts`) -/

/-- A refresh-token document (`RefreshToken.ts`): owner, active flag and
expiry. -/
structure RefreshTokenDoc where
  userId : Nat
  isActive : Bool
  expiresAt : Int
deriving DecidableEq, Repr

/-- `TokenUtils.refreshAccessToken` (`tokenUtils.ts` lines 89-114): the
refresh JWT is verified (its payload carries the `tokenId` used for
`RefreshToken.findById`), the stored document must exist, be active and be
unexpired, and then a new access token is signed for the owner.  The access
token is represented by the id of the user it is issued for.  The function
performs no database write: the returned store is the one it was given. -/
def refreshAccessToken (now : Int) (store : Nat → Option RefreshTokenDoc)
    (tokenId : Nat) : Except String (Nat × (Nat → Option RefreshTokenDoc)) :=
  match store tokenId with
  | none => .error "Invalid or expired refresh token"
  | some d =>
    if ¬ d.isActive ∨ d.expiresAt < now then
      .error "Invalid or expired refresh token"
    else
      .ok (d.userId, store)

/-- A refresh-token store holding one active, unexpired token, for the C4
counterexample. -/
def rtStoreEx : Nat → Option RefreshTokenDoc :=
  fun i =>
    if i = 0 then some { userId := 7, isActive := true, expiresAt := 100 }
    else none

/-! ## Auth middleware and `addToCart` (error taxonomy) -/

/-- A user document as the auth middleware reads it. -/
structure UserRec where
  id : Nat
  role : String
  isActive : Bool
deriving DecidableEq, Repr

/-- `authenticateToken` (`auth.ts` lines 11-40).  The bearer token is the
second space-separated word of the `Authorization` header (missing or empty
answers 401 "Access token required"); `jwt.verify` is an oracle returning
the decoded user id or failing (the catch turns any throw into 401 "Invalid
token"); a missing user answers 401, a deactivated user answers 401;
otherwise the user is attached to the request. -/
def authenticateToken (authHeader : Option String)
    (verify : String → Option Nat) (findUser : Nat → Option UserRec) :
    Except (String × Nat) UserRec :=
  let token : Option String :=
    authHeader.bind fun h => ((h.splitOn " ").get? 1).filter fun t => !t.isEmpty
  match token with
  | none => .error ("Access token required", 401)
  | some t =>
    match verify t with
    | none => .error ("Invalid token", 401)
    | some uid =>
      match findUser uid with
      | none => .error ("User not found", 401)
      | some u =>
        if ¬ u.isActive then .error ("User account is deactivated", 401)
        else .ok u

/-- `authorize(...roles)` (`auth.ts` lines 42-54): no authenticated user
answers 401; a role outside the authorized set answers 403; otherwise the
request proceeds (`none`). -/
def authorize (roles : List String) (user : Option UserRec) :
    Option (String × Nat) :=
  match user with
  | none => some ("User not authenticated", 401)
  | some u =>
    if roles.contains u.role then none
    else some ("Not authorized to access this resource", 403)

/-- The product fields `addToCart` reads: `isActive` and
`inventory.quantity`. -/
structure AddProduct where
  isActive : Bool
  inventoryQuantity : Nat
deriving DecidableEq, Repr

/-- The HTTP status `addToCart` answers (`cartController.ts` lines
101-198): a caught exception answers 500; a validation failure answers 400;
a missing or inactive product answers 404; insufficient stock answers 400;
when the item is already in the cart with quantity `q`, a combined quantity
above stock answers 400; otherwise the save succeeds (200). -/
def addToCartStatus (exceptional : Bool) (validationFailed : Bool)
    (product : Option AddProduct) (quantity : Nat)
    (existingQty : Option Nat) : Nat :=
  if exceptional then 500
  else if validationFailed then 400
  else
    match product with
    | none => 404
    | some p =>
      if ¬ p.isActive then 404
      else if p.inventoryQuantity < quantity then 400
      else
        match existingQty with
        | some q => if p.inventoryQuantity < q + quantity then 400 else 200
        | none => 200

/-! ## Response envelopes (`errorHandler`, controllers, rate limiters) -/

/-- The shape of a JSON response body: which of the conventional fields
(`success`, `message`, `data`, `errors`) it carries, plus the bare `error`
field some configured bodies use. -/
structure RespBody where
  success : Option Bool
  message : Option String
  hasData : Bool
  hasErrorsArr : Bool
  errorField : Option String
deriving DecidableEq, Repr

/-- An error as the central `errorHandler` inspects it: its `name`,
`message`, Mongo error code and optional `statusCode`. -/
structure AppError where
  name : String
  message : String
  mongoCode : Option Nat
  statusCode : Option Nat
deriving DecidableEq, Repr

/-- The status the central `errorHandler` answers (`errorHandler.ts`):
`CastError` becomes 404, Mongo duplicate key 11000 becomes 400,
`ValidationError` becomes 400, JWT errors become 401, otherwise
`error.statusCode || 500` (a zero or absent status code falls back to
500).  The `name` of an error is a single string, so the successive `if`
statements of the source rewrite the error at most once. -/
def errorHandlerStatus (e : AppError) : Nat :=
  if e.name = "CastError" then 404
  else if e.name = "MongoError" ∧ e.mongoCode = some 11000 then 400
  else if e.name = "ValidationError" then 400
  else if e.name = "JsonWebTokenError" then 401
  else if e.name = "TokenExpiredError" then 401
  else
    match e.statusCode with
    | some sc => if sc ≠ 0 then sc else 500
    | none => 500

/-- The message the central `errorHandler` answers:
`error.message || "Internal Server Error"` after the rewrites above. -/
def errorHandlerMessage (e : AppError) : String :=
  if e.name = "CastError" then "Resource not found"
  else if e.name = "MongoError" ∧ e.mongoCode = some 11000 then
    "Duplicate field value entered"
  else if e.name = "JsonWebTokenError" then "Invalid token"
  else if e.name = "TokenExpiredError" then "Token expired"
  else if e.message.isEmpty then "Internal Server Error"
  else e.message

/-- The body the central `errorHandler` sends:
`\x7b success: false, message \x7d`. -/
def errorHandlerBody (e : AppError) : RespBody :=
  { success := some false, message := some (errorHandlerMessage e),
    hasData := false, hasErrorsArr := false, errorField := none }

/-- The success body of `getCart` (lines 77-90): `success: true` with a
`data` payload. -/
def getCartSuccessBody : RespBody :=
  { success := some true, message := none, hasData := true,
    hasErrorsArr := false, errorField := none }

/-- The catch body of `getCart` (lines 91-97). -/
def getCart500Body : RespBody :=
  { success := some false, message := some "Internal server error",
    hasData := false, hasErrorsArr := false, errorField := none }

/-- The validation-failure body shared by the controllers
(`\x7b success: false, message: "Validation failed", errors: [...] \x7d`). -/
def validationFailedBody : RespBody :=
  { success := some false, message := some "Validation failed",
    hasData := false, hasErrorsArr := true, errorField := none }

/-! ## Rate limiters (`rateLimiter.ts`) -/

/-- The options a limiter is constructed with: window length, request cap,
the configured `message` body, and the body of the custom `handler` when
one is supplied. -/
structure RateLimiterOptions where
  windowMs : Int
  maxHits : Nat
  messageBody : RespBody
  handlerBody : Option RespBody
deriving DecidableEq, Repr

/-- The general `rateLimiter` (lines 6-20): 15-minute window, 100 requests,
and a custom handler answering
`\x7b success: false, message: "Too many requests from this IP, please try again later." \x7d`. -/
def rateLimiterOpts : RateLimiterOptions :=
  { windowMs := 15 * 60 * 1000
    maxHits := 100
    messageBody :=
      { success := none, message := none, hasData := false,
        hasErrorsArr := false,
        errorField := some "Too many requests from this IP, please try again later." }
    handlerBody :=
      some
        { success := some false,
          message := some "Too many requests from this IP, please try again later.",
          hasData := false, hasErrorsArr := false, errorField := none } }

/-- The strict `authRateLimiter` (lines 23-31): 15-minute window, 5
requests, no custom handler — the library default sends the configured
`message` value, here `\x7b error: "..." \x7d`, as the 429 body. -/
def authRateLimiterOpts : RateLimiterOptions :=
  { windowMs := 15 * 60 * 1000
    maxHits := 5
    messageBody :=
      { success := none, message := none, hasData := false,
        hasErrorsArr := false,
        errorField := some "Too many authentication attempts, please try again later." }
    handlerBody := none }

/-- The body a limiter sends with a 429: the custom handler body when one
is configured, otherwise (library default) the configured `message`
value. -/
def limitExceededBody (o : RateLimiterOptions) : RespBody :=
  o.handlerBody.getD o.messageBody

/-- The conventional error envelope of the spec: `success: false` plus a
`message` string. -/
def isErrorEnvelope (b : RespBody) : Prop :=
  b.success = some false ∧ b.message.isSome = true

instance (b : RespBody) : Decidable (isErrorEnvelope b) := by
  unfold isErrorEnvelope
  infer_instance

/-- Per-client window state kept by the limiter store: window start and the
number of hits counted in it. -/
structure RLState where
  windowStart : Int
  count : Nat
deriving DecidableEq, Repr

/-- One hit against a single client's window state (fixed-window counting
of express-rate-limit's memory store): outside the window the counter
resets to 1, inside it increments; the request passes while the counter
stays within `maxHits`. -/
def rlStep (o : RateLimiterOptions) (st : Option RLState) (t : Int) :
    Bool × RLState :=
  match st with
  | none => (1 ≤ o.maxHits, { windowStart := t, count := 1 })
  | some st =>
    if st.windowStart + o.windowMs ≤ t then
      (1 ≤ o.maxHits, { windowStart := t, count := 1 })
    else
      (st.count + 1 ≤ o.maxHits, { st with count := st.count + 1 })

/-- One request through a limiter, keyed by client IP (the library's
default key generator is `req.ip`): the result is `none` when the request
is passed on to the handler and `some 429` when it is rejected, plus the
updated per-IP store. -/
def rlRequest (o : RateLimiterOptions) (store : String → Option RLState)
    (ip : String) (t : Int) :
    Option Nat × (String → Option RLState) :=
  let r := rlStep o (store ip) t
  (if r.1 then none else some 429,
    fun k => if k = ip then some r.2 else store k)

/-- Run a request trace through a limiter and count how many requests from
`target` were passed on to a handler. -/
def rlAllowed (o : RateLimiterOptions) (store : String → Option RLState) :
    List (String × Int) → String → Nat
  | [], _ => 0
  | (ip, t) :: rest, target =>
    let r := rlRequest o store ip t
    (if ip = target ∧ r.1 = none then 1 else 0) +
      rlAllowed o r.2 rest target

/-! ## Net stock deltas and concrete documents used in witnesses -/

/-- The total quantity the cart items reference for product `p`. -/
def cartQty (items : List CartItem) (p : Nat) : Int :=
  ((items.filter fun i => i.productId == p).map fun i => (i.quantity : Int)).sum

/-- The total quantity the order items reference for product `p`. -/
def orderQty (items : List OrderItem) (p : Nat) : Int :=
  ((items.filter fun i => i.productId == p).map fun i => (i.quantity : Int)).sum

/-- An empty backend store. -/
def sys0 : Sys :=
  { products := fun _ => none, coupons := [], cart := none, orders := [] }

/-- An order that has already been shipped. -/
def shippedOrder : OrderDoc :=
  { emptyOrder with status := .shipped }

/-- A valid percentage coupon. -/
def cEx : Coupon :=
  { code := "SAVE", discountType := .percentage, discountValue := 10,
    maxDiscountAmount := none, usageLimit := 5, usedCount := 0,
    isActive := true, expiresAt := 100 }

/-- A one-item cart with the coupon `"SAVE"` applied. -/
def cartEx : CartDoc :=
  { items := [{ productId := 0, quantity := 1, price := 10, total := 10 }],
    totals := { subtotal := 10, tax := 1, shipping := 0, total := 11 },
    couponCode := some "SAVE" }

/-- A store with one active product, one valid coupon and the cart above. -/
def sysEx : Sys :=
  { products := fun i =>
      if i = 0 then
        some { name := "Widget", price := 10, isActive := true, stock := 5 }
      else none
    coupons := [cEx]
    cart := some cartEx
    orders := [] }

/-! ## Helper lemmas -/

theorem foldl_add_total (l : List CartItem) (a : ℚ) :
    l.foldl (fun sum item => sum + item.total) a =
      a + (l.map (fun item => item.total)).sum := by
  induction l generalizing a with
  | nil => simp
  | cons x t ih =>
    simp only [List.foldl_cons, List.map_cons, List.sum_cons]
    rw [ih]
    ring

theorem findCoupon_saveCouponUse (coupons : List Coupon) (code : String)
    (now : Int) (c : Coupon)
    (h : findCoupon coupons code now = some c) :
    findCoupon (saveCouponUse coupons code) code now =
      some { c with usedCount := c.usedCount + 1 } := by
  induction coupons with
  | nil => simp [findCoupon] at h
  | cons a t ih =>
    by_cases hpred :
        (a.code == code && a.isActive && decide (now < a.expiresAt)) = true
    · have hcode : a.code = code := by
        have h3 := hpred
        simp only [Bool.and_eq_true, beq_iff_eq, decide_eq_true_eq] at h3
        exact h3.1.1
      have hc : c = a := by
        have h2 := h
        rw [findCoupon] at h2
        rw [@List.find?_cons_of_pos _
          (fun c : Coupon => c.code == code && c.isActive && decide (now < c.expiresAt))
          a t hpred] at h2
        exact (Option.some_inj.mp h2).symm
      subst hc
      rw [findCoupon, saveCouponUse, List.map_cons, if_pos hcode]
      exact @List.find?_cons_of_pos _
        (fun c : Coupon => c.code == code && c.isActive && decide (now < c.expiresAt))
        _ _ hpred
    · have h2 := h
      rw [findCoupon] at h2
      rw [@List.find?_cons_of_neg _
        (fun c : Coupon => c.code == code && c.isActive && decide (now < c.expiresAt))
        a t hpred] at h2
      have ih2 := ih h2
      rw [findCoupon, saveCouponUse, List.map_cons]
      rw [findCoupon, saveCouponUse] at ih2
      by_cases hcode : a.code = code
      · rw [if_pos hcode]
        rw [@List.find?_cons_of_neg _
          (fun c : Coupon => c.code == code && c.isActive && decide (now < c.expiresAt))
          { a with usedCount := a.usedCount + 1 } _ hpred]
        exact ih2
      · rw [if_neg hcode]
        rw [@List.find?_cons_of_neg _
          (fun c : Coupon => c.code == code && c.isActive && decide (now < c.expiresAt))
          a _ hpred]
        exact ih2

theorem cartQty_cons (i : CartItem) (t : List CartItem) (p : Nat) :
    cartQty (i :: t) p =
      (if i.productId = p then (i.quantity : Int) else 0) + cartQty t p := by
  by_cases h : i.productId = p <;>
    simp [cartQty, List.filter_cons, h]

theorem orderQty_cons (i : OrderItem) (t : List OrderItem) (p : Nat) :
    orderQty (i :: t) p =
      (if i.productId = p then (i.quantity : Int) else 0) + orderQty t p := by
  by_cases h : i.productId = p <;>
    simp [orderQty, List.filter_cons, h]

theorem decStocks_apply (items : List CartItem)
    (ps : Nat → Option ProductDoc) (p : Nat) :
    decStocks ps items p =
      (ps p).map fun pd => { pd with stock := pd.stock - cartQty items p } := by
  induction items generalizing ps with
  | nil =>
    cases h : ps p <;> simp [decStocks, cartQty, h]
  | cons i t ih =>
    have h1 : decStocks ps (i :: t) =
        decStocks (incStock ps i.productId (-(i.quantity : Int))) t := rfl
    rw [h1, ih, cartQty_cons]
    unfold incStock
    by_cases hp : p = i.productId
    · rw [if_pos hp, if_pos hp.symm]
      cases hq : ps p with
      | none => rfl
      | some pd =>
        simp only [Option.map_some', Option.some.injEq, ProductDoc.mk.injEq,
          eq_self_iff_true, true_and]
        omega
    · rw [if_neg hp, if_neg (fun hh => hp hh.symm)]
      cases hq : ps p with
      | none => rfl
      | some pd =>
        simp only [Option.map_some', Option.some.injEq, ProductDoc.mk.injEq,
          eq_self_iff_true, true_and]
        omega

theorem restoreStocks_apply (items : List OrderItem)
    (ps : Nat → Option ProductDoc) (p : Nat) :
    restoreStocks ps items p =
      (ps p).map fun pd => { pd with stock := pd.stock + orderQty items p } := by
  induction items generalizing ps with
  | nil =>
    cases h : ps p <;> simp [restoreStocks, orderQty, h]
  | cons i t ih =>
    have h1 : restoreStocks ps (i :: t) =
        restoreStocks (incStock ps i.productId (i.quantity : Int)) t := rfl
    rw [h1, ih, orderQty_cons]
    unfold incStock
    by_cases hp : p = i.productId
    · rw [if_pos hp, if_pos hp.symm]
      cases hq : ps p with
      | none => rfl
      | some pd =>
        simp only [Option.map_some', Option.some.injEq, ProductDoc.mk.injEq,
          eq_self_iff_true, true_and]
        omega
    · rw [if_neg hp, if_neg (fun hh => hp hh.symm)]
      cases hq : ps p with
      | none => rfl
      | some pd =>
        simp only [Option.map_some', Option.some.injEq, ProductDoc.mk.injEq,
          eq_self_iff_true, true_and]
        omega

theorem orderQty_mkOrderItems (s : Sys) (l : List CartItem) (p : Nat) :
    orderQty (mkOrderItems s l) p = cartQty l p := by
  induction l with
  | nil => simp [mkOrderItems, orderQty, cartQty]
  | cons i t ih =>
    rw [mkOrderItems, List.map_cons]
    rw [orderQty_cons, cartQty_cons]
    rw [mkOrderItems] at ih
    rw [ih]

theorem restore_dec_stocks (s : Sys) (items : List CartItem) (p : Nat) :
    restoreStocks (decStocks s.products items) (mkOrderItems s items) p =
      s.products p := by
  rw [restoreStocks_apply, decStocks_apply, orderQty_mkOrderItems]
  cases hq : s.products p with
  | none => rfl
  | some pd =>
    obtain ⟨n, pr, act, st⟩ := pd
    simp only [Option.map_some', Option.some.injEq, ProductDoc.mk.injEq,
      eq_self_iff_true, true_and]
    omega

theorem finishOrder_cancel (s : Sys) (cs : List Coupon) (cart : CartDoc)
    (ord : OrderDoc) (p : Nat)
    (hstat : ord.status = .pending)
    (hitems : ord.items = mkOrderItems s cart.items) :
    (finishOrder s cs cart ord).status = 201 ∧
    (cancelOrder false ((finishOrder s cs cart ord).order.getD emptyOrder)
        (finishOrder s cs cart ord).sys).1 = 200 ∧
    ((cancelOrder false ((finishOrder s cs cart ord).order.getD emptyOrder)
        (finishOrder s cs cart ord).sys).2.1).products p = s.products p := by
  refine ⟨rfl, ?_, ?_⟩
  · simp [finishOrder, cancelOrder, hstat]
  · simp only [finishOrder, Option.getD_some]
    simp only [cancelOrder, hstat, Bool.false_eq_true, if_false]
    simp only [show (OrderStatus.pending = OrderStatus.shipped ∨
        OrderStatus.pending = OrderStatus.delivered) = False by simp,
      show (OrderStatus.pending = OrderStatus.cancelled) = False by simp,
      if_false]
    simp only [hitems]
    exact restore_dec_stocks s cart.items p

theorem rlStep_in_window (o : RateLimiterOptions) (w t : Int) (c : Nat)
    (ht : t < w + o.windowMs) :
    rlStep o (some { windowStart := w, count := c }) t =
      (decide (c + 1 ≤ o.maxHits), { windowStart := w, count := c + 1 }) := by
  simp only [rlStep]
  rw [if_neg (show ¬ (w + o.windowMs ≤ t) by omega)]

theorem rlStep_fresh (o : RateLimiterOptions) (t : Int) :
    rlStep o none t =
      (decide (1 ≤ o.maxHits), { windowStart := t, count := 1 }) := rfl

theorem rlAllowed_window_bound (o : RateLimiterOptions)
    (reqs : List (String × Int)) (ip : String) (w : Int) :
    ∀ (store : String → Option RLState) (c : Nat),
      store ip = some { windowStart := w, count := c } →
      (∀ pr ∈ reqs, pr.1 = ip → pr.2 < w + o.windowMs) →
      rlAllowed o store reqs ip + min c o.maxHits ≤ o.maxHits := by
  induction reqs with
  | nil =>
    intro store c hst hwin
    simp only [rlAllowed]
    omega
  | cons pr rest ih =>
    intro store c hst hwin
    obtain ⟨ip1, t1⟩ := pr
    by_cases hip : ip1 = ip
    · subst hip
      have ht : t1 < w + o.windowMs :=
        hwin (ip1, t1) (List.mem_cons_self _ _) rfl
      have hreq : rlRequest o store ip1 t1 =
          (if decide (c + 1 ≤ o.maxHits) = true then none else some 429,
            fun k => if k = ip1 then
              some { windowStart := w, count := c + 1 } else store k) := by
        simp only [rlRequest, hst, rlStep_in_window o w t1 c ht]
      have hih := ih (fun k => if k = ip1 then
          some { windowStart := w, count := c + 1 } else store k) (c + 1)
        (by simp)
        (fun pr hm hp => hwin pr (List.mem_cons_of_mem _ hm) hp)
      simp only [rlAllowed, hreq]
      by_cases hcm : c + 1 ≤ o.maxHits
      · rw [decide_eq_true hcm]
        simp only [if_true, and_self, if_pos rfl, eq_self_iff_true, and_true,
          true_and]
        omega
      · rw [decide_eq_false hcm]
        simp only [Bool.false_eq_true, if_false, reduceCtorEq, and_false]
        omega
    · have hip2 : ¬ ip = ip1 := fun hh => hip hh.symm
      have hih := ih (fun k => if k = ip1 then
          some (rlStep o (store ip1) t1).2 else store k) c
        (by simp only [if_neg hip2]; exact hst)
        (fun pr hm hp => hwin pr (List.mem_cons_of_mem _ hm) hp)
      simp only [rlAllowed, rlRequest]
      rw [if_neg (fun hand => hip hand.1)]
      omega

theorem rlAllowed_le_max (o : RateLimiterOptions)
    (reqs : List (String × Int)) (ip : String) (t0 : Int) :
    ∀ (store : String → Option RLState),
      store ip = none →
      (∀ pr ∈ reqs, pr.1 = ip → t0 ≤ pr.2 ∧ pr.2 < t0 + o.windowMs) →
      rlAllowed o store reqs ip ≤ o.maxHits := by
  induction reqs with
  | nil =>
    intro store h0 hwin
    simp [rlAllowed]
  | cons pr rest ih =>
    intro store h0 hwin
    obtain ⟨ip1, t1⟩ := pr
    by_cases hip : ip1 = ip
    · subst hip
      obtain ⟨ht0, ht1⟩ := hwin (ip1, t1) (List.mem_cons_self _ _) rfl
      have hreq : rlRequest o store ip1 t1 =
          (if decide (1 ≤ o.maxHits) = true then none else some 429,
            fun k => if k = ip1 then
              some { windowStart := t1, count := 1 } else store k) := by
        simp only [rlRequest, h0, rlStep_fresh]
      have hb := rlAllowed_window_bound o rest ip1 t1
        (fun k => if k = ip1 then
          some { windowStart := t1, count := 1 } else store k) 1
        (by simp)
        (fun pr hm hp => by
          have h2 := hwin pr (List.mem_cons_of_mem _ hm) hp
          omega)
      simp only [rlAllowed, hreq]
      by_cases h1m : 1 ≤ o.maxHits
      · rw [decide_eq_true h1m]
        simp only [if_true, and_self, if_pos rfl, eq_self_iff_true, and_true,
          true_and]
        omega
      · rw [decide_eq_false h1m]
        simp only [Bool.false_eq_true, if_false, reduceCtorEq, and_false]
        omega
    · have hip2 : ¬ ip = ip1 := fun hh => hip hh.symm
      have hih := ih (fun k => if k = ip1 then
          some (rlStep o (store ip1) t1).2 else store k)
        (by simp only [if_neg hip2]; exact h0)
        (fun pr hm hp => hwin pr (List.mem_cons_of_mem _ hm) hp)
      simp only [rlAllowed, rlRequest]
      rw [if_neg (fun hand => hip hand.1)]
      omega

theorem rlRequest_rejects (o : RateLimiterOptions)
    (store : String → Option RLState) (ip : String) (w t : Int) (c : Nat)
    (hst : store ip = some { windowStart := w, count := c })
    (hc : o.maxHits ≤ c) (ht : t < w + o.windowMs) :
    (rlRequest o store ip t).1 = some 429 := by
  have hno : ¬ (c + 1 ≤ o.maxHits) := by omega
  simp only [rlRequest, hst, rlStep_in_window o w t c ht, decide_eq_false hno,
    Bool.false_eq_true, if_false]

/-! ## Claim theorems -/

/-- C1 — counterexample. The code does not clamp the discount when
`maxDiscountAmount` is set to `0`: for a fixed coupon worth 5 with
`maxDiscountAmount = 0` on a subtotal of 10, `getCart` computes a discount
of 5, while the claim ("clamped to maxDiscountAmount when that field is
set") demands 0. -/
theorem C1_counterexample :
    getCartDiscount 10 couponZeroCap = 5 ∧
    claimC1Discount 10 couponZeroCap = 0 ∧
    getCartDiscount 10 couponZeroCap ≠ claimC1Discount 10 couponZeroCap := by
  refine ⟨by decide, by decide, by decide⟩

/-- C1 — amended claim: for every cart with a coupon applied, the computed
discount is `subtotal * discountValue / 100` for a percentage coupon and
`min(discountValue, subtotal)` for a fixed coupon, clamped to
`maxDiscountAmount` when that field is set to a nonzero value; the reported
cart/order total is `subtotal - discount`; and the computation performed by
`createOrder` is the same one performed by `getCart`. -/
theorem C1_discount_computation (subtotal : ℚ) (c : Coupon) :
    createOrderDiscount subtotal c = getCartDiscount subtotal c ∧
    getCartDiscount subtotal c = amendedC1Discount subtotal c ∧
    getCartTotal subtotal (some c) = subtotal - getCartDiscount subtotal c ∧
    createOrderTotal subtotal (some c) =
      subtotal - createOrderDiscount subtotal c := by
  refine ⟨rfl, rfl, rfl, rfl⟩

/-- C9 — confirmed. Every cart save re-establishes the stored-totals
invariant through the pre-save hook: `totals.subtotal` is the sum of the
item `total` fields, `totals.tax` is exactly 10% of `totals.subtotal`, and
`totals.total` is `subtotal + tax + shipping`; meanwhile the total `getCart`
reports is `subtotal - discount`, which carries no tax term. -/
theorem C9_cart_presave_totals (c : CartDoc) (s : ℚ) (co : Option Coupon) :
    (cartPreSave c).totals.subtotal =
      (c.items.map (fun item => item.total)).sum ∧
    (cartPreSave c).totals.tax = (cartPreSave c).totals.subtotal * (1 / 10) ∧
    (cartPreSave c).totals.total =
      (cartPreSave c).totals.subtotal + (cartPreSave c).totals.tax +
        (cartPreSave c).totals.shipping ∧
    getCartTotal s co =
      s - (match co with | some c => getCartDiscount s c | none => 0) := by
  refine ⟨?_, rfl, rfl, rfl⟩
  simp [cartPreSave, foldl_add_total]

/-- C3 — counterexample. Not every operation is guard-free: `cancelOrder`
refuses to move an order whose current status is `shipped` to `cancelled`,
answering 400 and leaving the order untouched — a transition guard based on
the current status, beyond any whitelist check on the requested value. -/
theorem C3_counterexample :
    (cancelOrder false shippedOrder sys0).1 = 400 ∧
    (cancelOrder false shippedOrder sys0).2.2.status = OrderStatus.shipped := by
  refine ⟨by decide, by decide⟩

/-- C3 — amended claim: `updateOrderStatus` applies no transition guard —
for every existing order and every requested status in the enum it answers
200 and sets the order status to the requested value regardless of the
current one — while the only other guard on a status transition is in
`cancelOrder`, which answers 400 and changes nothing when the order is
already shipped, delivered or cancelled, and otherwise cancels it. -/
theorem C3_status_transitions (now : Int) (o : OrderDoc) (st : OrderStatus)
    (tr : Option String) (s : Sys) :
    (updateOrderStatus now false st tr o).1 = 200 ∧
    (updateOrderStatus now false st tr o).2.status = st ∧
    (cancelOrder false o s).1 =
      (if o.status = .shipped ∨ o.status = .delivered ∨ o.status = .cancelled
        then 400 else 200) ∧
    (cancelOrder false o s).2.2.status =
      (if o.status = .shipped ∨ o.status = .delivered ∨ o.status = .cancelled
        then o.status else .cancelled) := by
  refine ⟨rfl, ?_, ?_, ?_⟩
  · simp only [updateOrderStatus, Bool.false_eq_true, if_false]
    cases tr with
    | none =>
      dsimp only
      split_ifs <;> rfl
    | some t =>
      dsimp only
      split_ifs <;> rfl
  · simp only [cancelOrder, Bool.false_eq_true, if_false]
    split_ifs with h1 h2 h3 <;> first | rfl | tauto
  · simp only [cancelOrder, Bool.false_eq_true, if_false]
    split_ifs with h1 h2 h3 <;> first | rfl | tauto

/-- C4 — counterexample. `refreshAccessToken` performs no rotation: on a
store holding one active, unexpired refresh token, the call succeeds and
returns the store unchanged — the presented token is still active
afterwards, so presenting it again yields another access token. -/
theorem C4_counterexample :
    refreshAccessToken 50 rtStoreEx 0 = .ok (7, rtStoreEx) ∧
    (rtStoreEx 0).map (fun d => d.isActive) = some true := by
  refine ⟨rfl, rfl⟩

/-- C4 — amended claim: for every valid, active, unexpired refresh token
presented to `refreshAccessToken`, the operation issues a new access token
for the owner but does not rotate: the presented refresh token is neither
invalidated nor replaced (the store is returned unchanged), so the same
refresh token can be used again to obtain further access tokens. -/
theorem C4_no_rotation (now : Int) (store : Nat → Option RefreshTokenDoc)
    (tokenId : Nat) (d : RefreshTokenDoc)
    (hd : store tokenId = some d) (hact : d.isActive = true)
    (hexp : ¬ d.expiresAt < now) :
    refreshAccessToken now store tokenId = .ok (d.userId, store) := by
  rw [refreshAccessToken, hd]
  dsimp only
  rw [if_neg]
  intro hor
  rcases hor with h1 | h2
  · exact h1 (by simp [hact])
  · exact hexp h2

/-- Witness for C4: the amended theorem applied at the concrete one-token
store. -/
theorem C4_no_rotation_witness :
    rtStoreEx 0 = some { userId := 7, isActive := true, expiresAt := 100 } ∧
    refreshAccessToken 50 rtStoreEx 0 = .ok (7, rtStoreEx) := by
  refine ⟨rfl, ?_⟩
  exact C4_no_rotation 50 rtStoreEx 0
    { userId := 7, isActive := true, expiresAt := 100 } rfl rfl (by decide)

/-- C7 — counterexample. The auth rate limiter has no custom handler, so
its 429 body is the configured `message` value `\x7b error: "..." \x7d`,
which carries neither `success: false` nor a `message` string. -/
theorem C7_counterexample :
    ¬ isErrorEnvelope (limitExceededBody authRateLimiterOpts) ∧
    limitExceededBody authRateLimiterOpts =
      authRateLimiterOpts.messageBody := by
  refine ⟨by decide, rfl⟩

/-- C7 — amended claim: responses from the controllers, the central error
handler and the general rate limiter use the conventional envelope — error
bodies carry `success: false` and a `message` string, success bodies carry
`success: true` and a `data` field where a payload exists, and validation
errors additionally carry an `errors` array — but the auth rate limiter
(default library handler) sends a bare `\x7b error: ... \x7d` body without
those fields. -/
theorem C7_response_envelopes (e : AppError) :
    isErrorEnvelope (errorHandlerBody e) ∧
    isErrorEnvelope (limitExceededBody rateLimiterOpts) ∧
    isErrorEnvelope getCart500Body ∧
    isErrorEnvelope validationFailedBody ∧
    validationFailedBody.hasErrorsArr = true ∧
    getCartSuccessBody.success = some true ∧
    getCartSuccessBody.hasData = true ∧
    ¬ isErrorEnvelope (limitExceededBody authRateLimiterOpts) := by
  refine ⟨⟨rfl, rfl⟩, by decide, by decide, by decide, rfl, rfl, rfl, by decide⟩

/-- C5 — confirmed (for an existing cart, with the schema bound
`usageLimit ≥ 1`): `applyCoupon` stores the coupon code on the cart exactly
when the cart is non-empty and the lookup on the uppercased code finds an
active, unexpired coupon whose `usedCount` is strictly below its
`usageLimit`; an empty cart, a failed lookup or an exhausted coupon each
answer 400 and leave the store — in particular the cart couponCode —
unchanged. -/
theorem C5_applyCoupon_conditions (now : Int) (code : String) (s : Sys)
    (cart : CartDoc) (c : Coupon) (hc : s.cart = some cart) :
    (cart.items.isEmpty = false →
      findCoupon s.coupons (upperCase code) now = some c →
      c.usedCount < c.usageLimit →
      applyCoupon now false code s =
        (200,
          { s with
            cart := some (cartPreSave { cart with couponCode := some c.code }) })) ∧
    (cart.items.isEmpty = true → applyCoupon now false code s = (400, s)) ∧
    (cart.items.isEmpty = false →
      findCoupon s.coupons (upperCase code) now = none →
      applyCoupon now false code s = (400, s)) ∧
    (cart.items.isEmpty = false →
      findCoupon s.coupons (upperCase code) now = some c →
      1 ≤ c.usageLimit → c.usageLimit ≤ c.usedCount →
      applyCoupon now false code s = (400, s)) := by
  refine ⟨?_, ?_, ?_, ?_⟩
  · intro hne hf hu
    simp only [applyCoupon, hc, hne, hf, Bool.false_eq_true, if_false]
    rw [if_neg (by omega)]
  · intro he
    simp only [applyCoupon, hc, he, Bool.false_eq_true, if_false, if_true]
  · intro hne hf
    simp only [applyCoupon, hc, hne, hf, Bool.false_eq_true, if_false]
  · intro hne hf h1 h2
    simp only [applyCoupon, hc, hne, hf, Bool.false_eq_true, if_false]
    rw [if_pos ⟨by omega, h2⟩]

/-- Witness for C5: applying the lowercase code "save" to the concrete
store succeeds and writes the stored (uppercase) code to the cart. -/
theorem C5_applyCoupon_conditions_witness :
    sysEx.cart = some cartEx ∧
    cartEx.items.isEmpty = false ∧
    findCoupon sysEx.coupons (upperCase "save") 0 = some cEx ∧
    cEx.usedCount < cEx.usageLimit ∧
    applyCoupon 0 false "save" sysEx =
      (200,
        { sysEx with
          cart := some (cartPreSave { cartEx with couponCode := some cEx.code }) }) := by
  refine ⟨rfl, by decide, by decide, by decide, ?_⟩
  exact (C5_applyCoupon_conditions 0 "save" sysEx cartEx cEx rfl).1
    (by decide) (by decide) (by decide)

/-- C6 — confirmed on the cited exemplars: `addToCart` answers 500 for any
caught exception, 400 for a validation failure, 404 for a missing or
inactive product and 400 for insufficient stock; `authenticateToken` answers
401 for every failure (missing, unverifiable or empty bearer token, unknown
or deactivated user); `authorize` answers 401 without an authenticated user
and 403 for a role outside the authorized set. -/
theorem C6_error_taxonomy (ve : Bool) (product : Option AddProduct)
    (q : Nat) (ex : Option Nat) (p : AddProduct)
    (hdr : Option String) (verify : String → Option Nat)
    (findUser : Nat → Option UserRec) (e : String × Nat)
    (roles : List String) (u : UserRec) :
    addToCartStatus true ve product q ex = 500 ∧
    addToCartStatus false true product q ex = 400 ∧
    addToCartStatus false false none q ex = 404 ∧
    (p.isActive = false → addToCartStatus false false (some p) q ex = 404) ∧
    (p.isActive = true → p.inventoryQuantity < q →
      addToCartStatus false false (some p) q ex = 400) ∧
    (authenticateToken hdr verify findUser = .error e → e.2 = 401) ∧
    (authorize roles (some u) =
      (if roles.contains u.role then none
        else some ("Not authorized to access this resource", 403))) ∧
    authorize roles none = some ("User not authenticated", 401) := by
  refine ⟨rfl, rfl, rfl, ?_, ?_, ?_, rfl, rfl⟩
  · intro h4
    simp [addToCartStatus, h4]
  · intro h5a h5b
    simp [addToCartStatus, h5a, h5b]
  · intro he
    simp only [authenticateToken] at he
    split at he
    · injection he with h
      rw [← h]
    · split at he
      · injection he with h
        rw [← h]
      · split at he
        · injection he with h
          rw [← h]
        · split at he
          · injection he with h
            rw [← h]
          · exact Except.noConfusion he

/-- Witness for C6: the taxonomy theorem applied at concrete requests —
an inactive product, an out-of-stock product, and a request with no
bearer token. -/
theorem C6_error_taxonomy_witness :
    addToCartStatus false false
      (some { isActive := false, inventoryQuantity := 5 }) 1 none = 404 ∧
    addToCartStatus false false
      (some { isActive := true, inventoryQuantity := 0 }) 1 none = 400 ∧
    (("Access token required", 401) : String × Nat).2 = 401 := by
  refine ⟨?_, ?_, ?_⟩
  · exact (C6_error_taxonomy false
      (some { isActive := false, inventoryQuantity := 5 }) 1 none
      { isActive := false, inventoryQuantity := 5 } none (fun _ => none)
      (fun _ => none) ("Access token required", 401) []
      { id := 0, role := "user", isActive := true }).2.2.2.1 rfl
  · exact (C6_error_taxonomy false
      (some { isActive := true, inventoryQuantity := 0 }) 1 none
      { isActive := true, inventoryQuantity := 0 } none (fun _ => none)
      (fun _ => none) ("Access token required", 401) []
      { id := 0, role := "user", isActive := true }).2.2.2.2.1 rfl (by decide)
  · exact (C6_error_taxonomy false none 1 none
      { isActive := true, inventoryQuantity := 0 } none (fun _ => none)
      (fun _ => none) ("Access token required", 401) []
      { id := 0, role := "user", isActive := true }).2.2.2.2.2.1 rfl

/-- C2 — confirmed. `createOrder` performs no compensation: when the
applied coupon has been found (and its `usedCount` incremented and saved)
and the payment then fails, the handler answers 400 (intent not succeeded)
or 500 (`processPayment` threw), and in the answered store the coupon keeps
the incremented `usedCount`, while no stock was decremented, no order was
saved and the cart was not cleared — the increment is never undone. -/
theorem C2_coupon_increment_not_rolled_back (now : Int) (pm : String)
    (pay : PaymentResult) (s : Sys) (cart : CartDoc) (code : String)
    (c : Coupon) (p : Nat)
    (hc : s.cart = some cart)
    (hne : cart.items.isEmpty = false)
    (hstock : (stockScan s cart).1 = 0)
    (hcode : cart.couponCode = some code)
    (hfound : findCoupon s.coupons code now = some c)
    (hpm : pm ≠ "cash_on_delivery")
    (hpay : pay ≠ .succeeded) :
    ((createOrder now false pm pay s).status = 400 ∨
      (createOrder now false pm pay s).status = 500) ∧
    findCoupon (createOrder now false pm pay s).sys.coupons code now =
      some { c with usedCount := c.usedCount + 1 } ∧
    (createOrder now false pm pay s).sys.products p = s.products p ∧
    (createOrder now false pm pay s).sys.orders = s.orders ∧
    (createOrder now false pm pay s).sys.cart = s.cart ∧
    (createOrder now false pm pay s).order = none := by
  cases pay with
  | succeeded => exact absurd rfl hpay
  | notSucceeded =>
    have hred : createOrder now false pm .notSucceeded s =
        ⟨400, { s with coupons := saveCouponUse s.coupons code }, none⟩ := by
      simp [createOrder, orderCouponStep, hc, hne, hstock, hcode, hfound, hpm]
    rw [hred]
    exact ⟨Or.inl rfl, findCoupon_saveCouponUse s.coupons code now c hfound,
      rfl, rfl, hc.symm ▸ rfl, rfl⟩
  | threw =>
    have hred : createOrder now false pm .threw s =
        ⟨500, { s with coupons := saveCouponUse s.coupons code }, none⟩ := by
      simp [createOrder, orderCouponStep, hc, hne, hstock, hcode, hfound, hpm]
    rw [hred]
    exact ⟨Or.inr rfl, findCoupon_saveCouponUse s.coupons code now c hfound,
      rfl, rfl, hc.symm ▸ rfl, rfl⟩

/-- Witness for C2: a concrete order attempt whose payment intent does not
succeed keeps the coupon usage increment. -/
theorem C2_coupon_increment_not_rolled_back_witness :
    sysEx.cart = some cartEx ∧
    cartEx.couponCode = some "SAVE" ∧
    findCoupon sysEx.coupons "SAVE" 0 = some cEx ∧
    ((createOrder 0 false "stripe" .notSucceeded sysEx).status = 400 ∨
      (createOrder 0 false "stripe" .notSucceeded sysEx).status = 500) ∧
    findCoupon (createOrder 0 false "stripe" .notSucceeded sysEx).sys.coupons
        "SAVE" 0 = some { cEx with usedCount := cEx.usedCount + 1 } ∧
    (createOrder 0 false "stripe" .notSucceeded sysEx).sys.products 0 =
      sysEx.products 0 ∧
    (createOrder 0 false "stripe" .notSucceeded sysEx).order = none := by
  have h := C2_coupon_increment_not_rolled_back 0 "stripe" .notSucceeded
    sysEx cartEx "SAVE" cEx 0 rfl (by decide) (by decide) rfl (by decide)
    (by decide) (by decide)
  exact ⟨rfl, rfl, by decide, h.1, h.2.1, h.2.2.1, h.2.2.2.2.2⟩

/-- C10 — confirmed. For every order attempt that succeeds (cash on
delivery, or a succeeded payment intent) and is then cancelled with no
interleaved operation, every product stock returns to its value before the
order: `createOrder` decrements each product by the ordered quantity and
`cancelOrder` (the created order is `pending`, so no guard fires)
increments it by the same quantity. -/
theorem C10_cancel_restores_stock (now : Int) (pm : String)
    (pay : PaymentResult) (s : Sys) (cart : CartDoc) (p : Nat)
    (hc : s.cart = some cart)
    (hne : cart.items.isEmpty = false)
    (hstock : (stockScan s cart).1 = 0)
    (hpay : pm = "cash_on_delivery" ∨ pay = .succeeded) :
    (createOrder now false pm pay s).status = 201 ∧
    (cancelOrder false
        ((createOrder now false pm pay s).order.getD emptyOrder)
        (createOrder now false pm pay s).sys).1 = 200 ∧
    ((cancelOrder false
        ((createOrder now false pm pay s).order.getD emptyOrder)
        (createOrder now false pm pay s).sys).2.1).products p =
      s.products p := by
  obtain ⟨cs, ord, hred, hstat, hitems⟩ :
      ∃ (cs : List Coupon) (ord : OrderDoc),
        createOrder now false pm pay s = finishOrder s cs cart ord ∧
        ord.status = .pending ∧ ord.items = mkOrderItems s cart.items := by
    by_cases hpm : pm = "cash_on_delivery"
    · refine ⟨(orderCouponStep now s cart (stockScan s cart).2).2,
        { items := mkOrderItems s cart.items
          subtotal := (stockScan s cart).2
          discount := (orderCouponStep now s cart (stockScan s cart).2).1
          total := (stockScan s cart).2 -
            (orderCouponStep now s cart (stockScan s cart).2).1
          status := .pending
          paymentCompleted := false
          trackingNumber := none
          shippedAt := none
          deliveredAt := none }, ?_, rfl, rfl⟩
      simp [createOrder, hc, hne, hstock, hpm]
    · have hps : pay = .succeeded := hpay.resolve_left hpm
      subst hps
      refine ⟨(orderCouponStep now s cart (stockScan s cart).2).2,
        { items := mkOrderItems s cart.items
          subtotal := (stockScan s cart).2
          discount := (orderCouponStep now s cart (stockScan s cart).2).1
          total := (stockScan s cart).2 -
            (orderCouponStep now s cart (stockScan s cart).2).1
          status := .pending
          paymentCompleted := true
          trackingNumber := none
          shippedAt := none
          deliveredAt := none }, ?_, rfl, rfl⟩
      simp [createOrder, hc, hne, hstock, hpm]
  rw [hred]
  exact finishOrder_cancel s cs cart ord p hstat hitems

/-- Witness for C10: a concrete cash-free order on the one-product store is
created with a succeeded payment and cancelled; the product stock returns
to its initial value. -/
theorem C10_cancel_restores_stock_witness :
    sysEx.cart = some cartEx ∧
    (stockScan sysEx cartEx).1 = 0 ∧
    (createOrder 0 false "stripe" .succeeded sysEx).status = 201 ∧
    (cancelOrder false
        ((createOrder 0 false "stripe" .succeeded sysEx).order.getD emptyOrder)
        (createOrder 0 false "stripe" .succeeded sysEx).sys).1 = 200 ∧
    ((cancelOrder false
        ((createOrder 0 false "stripe" .succeeded sysEx).order.getD emptyOrder)
        (createOrder 0 false "stripe" .succeeded sysEx).sys).2.1).products 0 =
      sysEx.products 0 := by
  have h := C10_cancel_restores_stock 0 "stripe" .succeeded sysEx cartEx 0
    rfl (by decide) (by decide) (Or.inr rfl)
  exact ⟨rfl, by decide, h.1, h.2.1, h.2.2⟩

/-- C8 — confirmed under the fixed-window counting of the limiter store:
both limiters use a 15-minute window; in any request trace whose requests
from an IP fall inside one window of its first request, the general limiter
passes at most 100 of that IP's requests to a handler and the auth limiter
at most 5; and once an IP's window counter has reached the cap, a further
request inside the window is answered 429 without reaching any handler. -/
theorem C8_rate_limiting (reqs : List (String × Int))
    (store store2 : String → Option RLState) (ip : String) (t0 w t : Int)
    (c : Nat)
    (h0 : store ip = none)
    (hwin : ∀ pr ∈ reqs, pr.1 = ip →
      t0 ≤ pr.2 ∧ pr.2 < t0 + (15 * 60 * 1000 : Int))
    (hst2 : store2 ip = some { windowStart := w, count := c }) :
    rateLimiterOpts.windowMs = 15 * 60 * 1000 ∧
    rateLimiterOpts.maxHits = 100 ∧
    authRateLimiterOpts.windowMs = 15 * 60 * 1000 ∧
    authRateLimiterOpts.maxHits = 5 ∧
    rlAllowed rateLimiterOpts store reqs ip ≤ 100 ∧
    rlAllowed authRateLimiterOpts store reqs ip ≤ 5 ∧
    (100 ≤ c → t < w + rateLimiterOpts.windowMs →
      (rlRequest rateLimiterOpts store2 ip t).1 = some 429) ∧
    (5 ≤ c → t < w + authRateLimiterOpts.windowMs →
      (rlRequest authRateLimiterOpts store2 ip t).1 = some 429) := by
  refine ⟨rfl, rfl, rfl, rfl, ?_, ?_, ?_, ?_⟩
  · exact rlAllowed_le_max rateLimiterOpts reqs ip t0 store h0 hwin
  · exact rlAllowed_le_max authRateLimiterOpts reqs ip t0 store h0 hwin
  · intro hc ht
    exact rlRequest_rejects rateLimiterOpts store2 ip w t c hst2 hc ht
  · intro hc ht
    exact rlRequest_rejects authRateLimiterOpts store2 ip w t c hst2 hc ht

/-- Witness for C8: a two-request trace from one IP inside a fresh window,
and a saturated window state rejecting the next request with 429. -/
theorem C8_rate_limiting_witness :
    rlAllowed rateLimiterOpts (fun _ => none) [("a", 0), ("a", 1)] "a" ≤ 100 ∧
    rlAllowed authRateLimiterOpts (fun _ => none) [("a", 0), ("a", 1)] "a" ≤ 5 ∧
    (rlRequest rateLimiterOpts
      (fun k => if k = "a" then some { windowStart := 0, count := 100 }
        else none) "a" 1).1 = some 429 ∧
    (rlRequest authRateLimiterOpts
      (fun k => if k = "a" then some { windowStart := 0, count := 100 }
        else none) "a" 1).1 = some 429 := by
  have h := C8_rate_limiting [("a", 0), ("a", 1)] (fun _ => none)
    (fun k => if k = "a" then some { windowStart := 0, count := 100 }
      else none) "a" 0 0 1 100 rfl (by decide) (by decide)
  exact ⟨h.2.2.2.2.1, h.2.2.2.2.2.1,
    h.2.2.2.2.2.2.1 (by decide) (by decide),
    h.2.2.2.2.2.2.2 (by decide) (by decide)⟩


end ECom
